import Mathlib

/-!
# Verification of the device0 instrument-control core

Shallow embedding of `src/device0/imaging.py` (classes `VNA`, `Switches`,
`SwitchInvalidPortException`) from the Algae target-positioning system.

Modelling conventions:
* Python numeric values (floats/ints held in the GUI `input_dict` parameter
  store) are modelled as `ℚ`; Python `int(x)` truncation toward zero is
  `pyInt`.
* The parameter store `gui.parameter.input_dict` is an association list
  `Store`; `x in input_dict` and `input_dict[k].value` are `List.lookup`.
* Python exceptions are the inductive `PyExc`; fallible code returns
  `Except PyExc _`.
* Commands sent to an instrument session are recorded as a trace of `Ev`
  events (`write cmd` / `query cmd`).  Query responses come from an oracle
  function supplied by the caller (the physical instrument is external).
* `time.sleep` debounce delays and the VISA session attributes
  (terminators, timeout) have no observable effect on any modelled value
  and are not represented in the traces.
-/

/-- Python exception kinds reachable from the embedded code:
`visa.errors.VisaIOError`, `visa.errors.InvalidSession`, `KeyError`
(missing `input_dict` entry), `ZeroDivisionError`, the repository's own
`SwitchInvalidPortException` (carrying the attempted port), and a stand-in
for any unrelated exception. -/
inductive PyExc where
  | visaIOError : PyExc
  | invalidSession : PyExc
  | keyError : String → PyExc
  | zeroDivisionError : PyExc
  | switchInvalidPort : Int → PyExc
  | otherExc : PyExc
  deriving DecidableEq

/-- One observable interaction with an instrument session:
`resource.write(cmd)` or `resource.query(cmd)`. -/
inductive Ev where
  | write : String → Ev
  | query : String → Ev
  deriving DecidableEq

/-- The `gui.parameter.input_dict` store: named settings mapped to numeric
values. -/
abbrev Store := List (String × ℚ)

/-- Python `int(q)`: truncation toward zero. -/
def pyInt (q : ℚ) : Int :=
  if 0 ≤ q then ⌊q⌋ else ⌈q⌉

namespace Switches

/-- Embeds `Switches.PORT_MIN` (imaging.py line 169). -/
def PORT_MIN : Int := 1

/-- Embeds `Switches.PORT_MAX` (imaging.py line 170). -/
def PORT_MAX : Int := 24

/-- Embeds `Switches.pad_port_number` (imaging.py lines 213-220):
`'0' + str(port)` when `port <= 9`, else `str(port)`. -/
def pad_port_number (port : Int) : String :=
  if port ≤ 9 then "0" ++ toString port else toString port

/-- Embeds `Switches.set_tran` (imaging.py lines 194-200).  Result is the list of
commands written to the session paired with the raised exception, if any.
The source writes `f'tran_{Switches.pad_port_number(port)};'` — note the
trailing semicolon — and then sleeps for the debounce time. -/
def set_tran (port : Int) : List String × Option PyExc :=
  if port < PORT_MIN ∨ port > PORT_MAX then
    ([], some (PyExc.switchInvalidPort port))
  else
    (["tran_" ++ pad_port_number port ++ ";"], none)

/-- Embeds `Switches.set_refl` (imaging.py lines 202-208).  The source writes
`f'refl_{Switches.pad_port_number(port)}'` — no trailing semicolon — and
then sleeps for the debounce time. -/
def set_refl (port : Int) : List String × Option PyExc :=
  if port < PORT_MIN ∨ port > PORT_MAX then
    ([], some (PyExc.switchInvalidPort port))
  else
    (["refl_" ++ pad_port_number port], none)

end Switches

namespace VNA

/-- Embeds `VNA.s_params` (imaging.py line 24). -/
def s_params : List String := ["S11", "S21", "S12", "S22"]

/-- Controller-internal mutable state of a `VNA` object relevant to the
claims: the list `self.sp_to_measure`.  (`self.resource`, `self.name` and
`self.p_ranges` carry no information any claim depends on.) -/
structure State where
  sp_to_measure : List String
  deriving DecidableEq

/-- Embeds `VNA.__init__` (imaging.py line 30) sets `self.sp_to_measure = []`. -/
def initState : State := ⟨[]⟩

/-- The enable test of the acquisition loop (imaging.py lines 93-96):
`s_param in input_dict` and `input_dict[s_param].value == 1`. -/
def sparamEnabled (store : Store) (sp : String) : Bool :=
  match List.lookup sp store with
  | some v => decide (v = 1)
  | none => false

/-- Embeds `VNA.freq_list` (imaging.py lines 35-41):
`inc = (freq_stop - freq_start) / (num_points - 1)` followed by
`[freq_start + i * inc for i in range(int(num_points))]`.
Lookups happen in the source's evaluation order (`freq_stop`,
`freq_start`, `num_points`); a missing key raises `KeyError`, and
`num_points - 1 == 0` makes the division raise `ZeroDivisionError`. -/
def freq_list (store : Store) : Except PyExc (List ℚ) :=
  match List.lookup "freq_stop" store with
  | none => Except.error (PyExc.keyError "freq_stop")
  | some fstop =>
  match List.lookup "freq_start" store with
  | none => Except.error (PyExc.keyError "freq_start")
  | some fstart =>
  match List.lookup "num_points" store with
  | none => Except.error (PyExc.keyError "num_points")
  | some np =>
  if np - 1 = 0 then Except.error PyExc.zeroDivisionError
  else
    Except.ok ((List.range (pyInt np).toNat).map
      (fun i : ℕ => fstart + (i : ℚ) * ((fstop - fstart) / (np - 1))))

/-- One step of the acquisition loop at the end of `VNA.initialize`
(imaging.py lines 93-96): `if s_param in input_dict:
if input_dict[s_param].value == 1: self.sp_to_measure.append(s_param)`. -/
def spStep (store : Store) (st : State) (sp : String) : State :=
  match List.lookup sp store with
  | some v => if v = 1 then ⟨st.sp_to_measure ++ [sp]⟩ else st
  | none => st

/-- Embeds `VNA.initialize` (imaging.py lines 60-96), modelled as the trace of
commands it issues plus the updated controller state.  `fmt` abstracts
Python's `str()` rendering of a numeric value into a command argument (no
claim depends on that rendering).  A missing numeric key raises `KeyError`
exactly as `input_dict[k]` would; the keys are demanded in source order
(`num_points` line 82, `ifbw` line 83, `freq_start` line 84, `freq_stop`
line 85, `power` line 87). -/
def initDevice (fmt : ℚ → String) (store : Store) (st : State) :
    Except PyExc (List Ev × State) :=
  match List.lookup "num_points" store with
  | none => Except.error (PyExc.keyError "num_points")
  | some np =>
  match List.lookup "ifbw" store with
  | none => Except.error (PyExc.keyError "ifbw")
  | some ifbw =>
  match List.lookup "freq_start" store with
  | none => Except.error (PyExc.keyError "freq_start")
  | some fstart =>
  match List.lookup "freq_stop" store with
  | none => Except.error (PyExc.keyError "freq_stop")
  | some fstop =>
  match List.lookup "power" store with
  | none => Except.error (PyExc.keyError "power")
  | some pw =>
    Except.ok
      ([Ev.query "*IDN?",
        Ev.write "SYSTEM:FPRESET",
        Ev.write "DISPLAY:VISIBLE OFF",
        Ev.write "CALCULATE1:PARAMETER:DEFINE \x27parameter_S11\x27, S11",
        Ev.write "CALCULATE1:PARAMETER:DEFINE \x27parameter_S12\x27, S12",
        Ev.write "CALCULATE1:PARAMETER:DEFINE \x27parameter_S21\x27, S21",
        Ev.write "CALCULATE1:PARAMETER:DEFINE \x27parameter_S22\x27, S22",
        Ev.write "INITIATE:CONTINUOUS OFF",
        Ev.write "TRIGGER:SOURCE MANUAL",
        Ev.write "SENSE1:SWEEP:MODE HOLD",
        Ev.write "SENSE1:AVERAGE OFF",
        Ev.write "SENSE1:SWEEP:TYPE LINEAR",
        Ev.write ("SENSE1:SWEEP:POINTS " ++ fmt ((pyInt np : Int) : ℚ)),
        Ev.write ("SENSE1:BANDWIDTH " ++ fmt ifbw),
        Ev.write ("SENSE1:FREQUENCY:START " ++ fmt fstart),
        Ev.write ("SENSE1:FREQUENCY:STOP " ++ fmt fstop),
        Ev.write ("SOURCE1:POWER1 " ++ fmt pw ++ "DBM")],
       s_params.foldl (spStep store) st)

/-- The parameter-select command built by `VNA.fire` (imaging.py line 121):
`'CALCULATE1:PARAMETER:SELECT \x27' + 'parameter_' + s_parameter + '\x27'`. -/
def selectCmd (sp : String) : String :=
  "CALCULATE1:PARAMETER:SELECT \x27parameter_" ++ sp ++ "\x27"

/-- Python dict assignment `d[k] = v`: overwrite in place when the key is
present, append otherwise. -/
def dictInsert (d : List (String × String)) (k : String) (v : String) :
    List (String × String) :=
  if d.any (fun p => p.1 == k) then
    d.map (fun p => if p.1 == k then (k, v) else p)
  else
    d ++ [(k, v)]

/-- One iteration of the collection loop of `VNA.fire` (imaging.py lines
120-122): write the parameter-select command, then
`output[s_parameter] = self.query('CALCULATE:DATA? SDATA')`.  `resp` is
the instrument oracle, a function of the trace so far and of the query. -/
def fireStep (resp : List Ev → String → String)
    (acc : List Ev × List (String × String)) (sp : String) :
    List Ev × List (String × String) :=
  (acc.1 ++ [Ev.write (selectCmd sp), Ev.query "CALCULATE:DATA? SDATA"],
   dictInsert acc.2 sp
     (resp (acc.1 ++ [Ev.write (selectCmd sp)]) "CALCULATE:DATA? SDATA"))

/-- Embeds `VNA.fire` (imaging.py lines 112-124): write `INIT:IMM`, query `*OPC?`
(completion barrier), then run the collection loop over
`self.sp_to_measure`, returning the trace and the `output` dict. -/
def fire (resp : List Ev → String → String) (st : State) :
    List Ev × List (String × String) :=
  st.sp_to_measure.foldl (fireStep resp)
    ([Ev.write "INIT:IMM", Ev.query "*OPC?"], [])

end VNA

/-!
## Session lifecycle

Modelled from the spec: the SessionPort transport collaborator
(spec §6) is external to the repository, so its contract is taken from the
spec's words: `write`/`query` on an invalid or already-closed session fail
with the transport's invalid-session error (§7 taxonomy (b)), while
`close` is idempotent — "already invalid" is not treated as a failure.
A session is represented by its openness flag; each transport primitive
returns the new flag or the raised exception.
-/

/-- Modelled from the spec: transport `write` primitive — fails with the
invalid-session transport error when the session is not open. -/
def sessWrite (cmd : String) (isOpen : Bool) : Except PyExc Bool :=
  if isOpen then Except.ok isOpen else Except.error PyExc.invalidSession

/-- Modelled from the spec: transport `close` primitive — idempotent,
never fails on an already-closed session. -/
def sessClose (isOpen : Bool) : Except PyExc Bool :=
  Except.ok false

namespace VNA

/-- Embeds `VNA.write` (imaging.py lines 106-107) run against the session model:
a bare delegation to `resource.write`, with no exception handling. -/
def writeOp (cmd : String) (isOpen : Bool) : Except PyExc Bool :=
  sessWrite cmd isOpen

/-- Embeds `VNA.close` (imaging.py lines 55-58): `self.write('*RST')` then
`self.resource.close()`, with no exception handling. -/
def closeOp (isOpen : Bool) : Except PyExc Bool := do
  let o ← writeOp "*RST" isOpen
  sessClose o

/-- Embeds `VNA.__del__` (imaging.py lines 43-53): if there is a resource, run
the teardown body (`self.write('*RST')` then `self.resource.close()`,
whose outcomes are the two arguments) under
`except VisaIOError: pass` / `except InvalidSession: pass`. -/
def delMethod (hasResource : Bool) (writeRst closeRes : Except PyExc Unit) :
    Except PyExc Unit :=
  if hasResource then
    match (do let _ ← writeRst; closeRes : Except PyExc Unit) with
    | Except.ok u => Except.ok u
    | Except.error PyExc.visaIOError => Except.ok ()
    | Except.error PyExc.invalidSession => Except.ok ()
    | Except.error e => Except.error e
  else
    Except.ok ()

end VNA

namespace Switches

/-- Embeds `Switches.write` (imaging.py lines 210-211) run against the session
model: a bare delegation to `resource.write`, with no exception
handling. -/
def writeOp (cmd : String) (isOpen : Bool) : Except PyExc Bool :=
  sessWrite cmd isOpen

/-- Embeds `Switches.close` (imaging.py lines 188-189): `self.resource.close()`,
with no exception handling. -/
def closeOp (isOpen : Bool) : Except PyExc Bool :=
  sessClose isOpen

/-- Embeds `Switches.__del__` (imaging.py lines 177-186): if there is a resource,
run `self.resource.close()` (outcome is the argument) under
`except VisaIOError: pass` / `except InvalidSession: pass`. -/
def delMethod (hasResource : Bool) (closeRes : Except PyExc Unit) :
    Except PyExc Unit :=
  if hasResource then
    match closeRes with
    | Except.ok u => Except.ok u
    | Except.error PyExc.visaIOError => Except.ok ()
    | Except.error PyExc.invalidSession => Except.ok ()
    | Except.error e => Except.error e
  else
    Except.ok ()

end Switches

/-!
## Helper definitions and lemmas
-/

/-- Decimal value of a digit character. -/
def decDigit (c : Char) : Nat := c.toNat - 48

/-- Decimal numeric value of a string of digits (used to state that a
formatted port string denotes the port it was built from). -/
def strDecValue (s : String) : Nat :=
  s.data.foldl (fun n c => 10 * n + decDigit c) 0

/-- A concrete numeric formatter standing in for Python `str` in closed
instances (no claim depends on the rendering of numeric arguments). -/
def fmt0 : ℚ → String := fun _ => ""

/-- A concrete instrument oracle for closed instances. -/
def respW : List Ev → String → String := fun _ _ => "payload"

/-- The spec's example ParameterStore (`freq_start: 1e9, freq_stop: 2e9,
num_points: 3, S11: 1, S21: 0, S12: 0, S22: 0`), completed with the
`ifbw` and `power` entries that `initialize()` also reads. -/
def storeS11 : Store :=
  [("freq_start", 1000000000), ("freq_stop", 2000000000), ("num_points", 3),
   ("ifbw", 1000), ("power", 0),
   ("S11", 1), ("S21", 0), ("S12", 0), ("S22", 0)]

/-- A store whose `S11` value is 2: truthy in Python, but not equal to 1. -/
def storeS11Two : Store :=
  [("num_points", 3), ("ifbw", 1000), ("freq_start", 1000000000),
   ("freq_stop", 2000000000), ("power", 0), ("S11", 2)]

/-- Evaluation lemma for `VNA.freq_list` once the three store lookups are
known. -/
theorem VNA.freq_list_eq (store : Store) (a b np : ℚ)
    (hb : List.lookup "freq_stop" store = some b)
    (ha : List.lookup "freq_start" store = some a)
    (hnp : List.lookup "num_points" store = some np) :
    VNA.freq_list store =
      if np - 1 = 0 then Except.error PyExc.zeroDivisionError
      else Except.ok ((List.range (pyInt np).toNat).map
        (fun i : ℕ => a + (i : ℚ) * ((b - a) / (np - 1)))) := by
  unfold VNA.freq_list
  rw [hb, ha, hnp]

/-- One acquisition-loop step appends `[sp]` exactly when the enable test
holds. -/
theorem VNA.spStep_sp (store : Store) (st : VNA.State) (sp : String) :
    (VNA.spStep store st sp).sp_to_measure =
      st.sp_to_measure ++ (if VNA.sparamEnabled store sp then [sp] else []) := by
  unfold VNA.spStep VNA.sparamEnabled
  cases h : List.lookup sp store with
  | none => simp
  | some v => by_cases hv : v = 1 <;> simp [hv]

/-- The acquisition loop appends exactly the enabled parameters, in list
order. -/
theorem VNA.spFold_sp (store : Store) :
    ∀ (l : List String) (st : VNA.State),
      (l.foldl (VNA.spStep store) st).sp_to_measure =
        st.sp_to_measure ++ l.filter (VNA.sparamEnabled store)
  | [], st => by simp
  | sp :: l, st => by
    rw [List.foldl_cons, VNA.spFold_sp store l _, VNA.spStep_sp]
    by_cases h : VNA.sparamEnabled store sp <;> simp [h]

/-- A successful `initialize()` appends the enabled parameters (in the
fixed `s_params` order) to the acquisition list. -/
theorem VNA.initDevice_sp (fmt : ℚ → String) (store : Store)
    (st : VNA.State) (tr : List Ev) (st' : VNA.State)
    (h : VNA.initDevice fmt store st = Except.ok (tr, st')) :
    st'.sp_to_measure =
      st.sp_to_measure ++ VNA.s_params.filter (VNA.sparamEnabled store) := by
  unfold VNA.initDevice at h
  repeat' split at h
  any_goals exact Except.noConfusion h
  injection h with hpair
  injection hpair with htr hst
  rw [← hst, VNA.spFold_sp]

/-- The trace of the `fire()` collection loop: one select-write/data-query
pair per listed parameter, appended in list order. -/
theorem VNA.fire_fold_fst (resp : List Ev → String → String) :
    ∀ (l : List String) (acc : List Ev × List (String × String)),
      (l.foldl (VNA.fireStep resp) acc).1 =
        acc.1 ++ (l.map (fun sp =>
          [Ev.write (VNA.selectCmd sp),
           Ev.query "CALCULATE:DATA? SDATA"])).flatten
  | [], acc => by simp
  | sp :: l, acc => by
    rw [List.foldl_cons, VNA.fire_fold_fst resp l _]
    simp [VNA.fireStep]

/-- Inserting a fresh key into the `output` dict appends it. -/
theorem VNA.dictInsert_keys_fresh (d : List (String × String))
    (k : String) (v : String) (h : ∀ p ∈ d, p.1 ≠ k) :
    (VNA.dictInsert d k v).map Prod.fst = d.map Prod.fst ++ [k] := by
  unfold VNA.dictInsert
  rw [if_neg]
  · simp
  · intro hc
    obtain ⟨p, hp, hbeq⟩ := List.any_eq_true.mp hc
    exact h p hp (by simpa using hbeq)

/-- The keys of the `output` dict built by the `fire()` loop are exactly
the listed parameters, in list order, provided the listed parameters are
distinct and fresh for the accumulator. -/
theorem VNA.fire_fold_keys (resp : List Ev → String → String) :
    ∀ (l : List String) (acc : List Ev × List (String × String)),
      l.Nodup → (∀ k ∈ l, ∀ p ∈ acc.2, p.1 ≠ k) →
      (l.foldl (VNA.fireStep resp) acc).2.map Prod.fst =
        acc.2.map Prod.fst ++ l
  | [], acc, _, _ => by simp
  | sp :: l, acc, hnd, hdisj => by
    have hfresh : ∀ p ∈ acc.2, p.1 ≠ sp :=
      fun p hp => hdisj sp (by simp) p hp
    have hk : (VNA.fireStep resp acc sp).2.map Prod.fst =
        acc.2.map Prod.fst ++ [sp] :=
      VNA.dictInsert_keys_fresh _ _ _ hfresh
    have hdisj' : ∀ k ∈ l, ∀ p ∈ (VNA.fireStep resp acc sp).2, p.1 ≠ k := by
      intro k hkl p hpmem hcon
      have hmem : p.1 ∈ (VNA.fireStep resp acc sp).2.map Prod.fst :=
        List.mem_map_of_mem Prod.fst hpmem
      rw [hk] at hmem
      rcases List.mem_append.mp hmem with hin | hin
      · obtain ⟨q, hq, hq1⟩ := List.mem_map.mp hin
        exact hdisj k (List.mem_cons_of_mem _ hkl) q hq (hq1.trans hcon)
      · have hsp : p.1 = sp := by simpa using hin
        have hks : k = sp := hcon.symm.trans hsp
        exact (List.nodup_cons.mp hnd).1 (hks ▸ hkl)
    rw [List.foldl_cons,
      VNA.fire_fold_keys resp l _ (List.nodup_cons.mp hnd).2 hdisj', hk]
    simp

/-- The four class-level parameter names are distinct. -/
theorem VNA.s_params_nodup : VNA.s_params.Nodup := by decide

/-!
## Claim C2
-/

/-- C2: for every ParameterStore holding numeric `freq_start` and
`freq_stop` and an integer `num_points ≥ 2`, `frequencyList()` returns
exactly `num_points` values, strictly increasing when
`freq_stop > freq_start` (constant when the two are equal), with first
element `freq_start` and last element `freq_stop` (exactly, in the
rational-arithmetic model, hence within floating-point tolerance). -/
theorem freq_list_linear_spec (store : Store) (a b : ℚ) (n : ℕ) (hn : 2 ≤ n)
    (ha : List.lookup "freq_start" store = some a)
    (hb : List.lookup "freq_stop" store = some b)
    (hnp : List.lookup "num_points" store = some (n : ℚ)) :
    ∃ l : List ℚ, VNA.freq_list store = Except.ok l ∧ l.length = n ∧
      l.head? = some a ∧ l.getLast? = some b ∧
      (a < b → l.Pairwise (· < ·)) ∧ (a = b → ∀ x ∈ l, x = a) := by
  have hcast : (2 : ℚ) ≤ (n : ℚ) := by exact_mod_cast hn
  have hne : (n : ℚ) - 1 ≠ 0 := by
    intro h
    have : (n : ℚ) = 1 := by linarith
    linarith
  have hpos : 0 < (n : ℚ) - 1 := by linarith
  have hpy : (pyInt ((n : ℕ) : ℚ)).toNat = n := by
    unfold pyInt
    rw [if_pos (by positivity), Int.floor_natCast, Int.toNat_natCast]
  set inc : ℚ := (b - a) / ((n : ℚ) - 1) with hinc
  have hfl : VNA.freq_list store =
      Except.ok ((List.range n).map (fun i : ℕ => a + (i : ℚ) * inc)) := by
    rw [VNA.freq_list_eq store a b ((n : ℕ) : ℚ) hb ha hnp, if_neg hne, hpy]
  refine ⟨_, hfl, by simp, ?_, ?_, ?_, ?_⟩
  · -- first element is freq_start
    obtain ⟨m, rfl⟩ : ∃ m, n = m + 2 := ⟨n - 2, by omega⟩
    rw [List.range_succ_eq_map]
    simp
  · -- last element is freq_stop
    obtain ⟨m, rfl⟩ : ∃ m, n = m + 2 := ⟨n - 2, by omega⟩
    rw [List.range_succ, List.map_append, List.map_singleton,
      List.getLast?_concat]
    have hm1 : ((m : ℚ) + 2) - 1 = (m : ℚ) + 1 := by ring
    have hmne : (m : ℚ) + 1 ≠ 0 := by positivity
    have : a + ((m + 1 : ℕ) : ℚ) * inc = b := by
      rw [hinc]
      push_cast
      rw [hm1]
      field_simp
    rw [this]
  · -- strictly increasing when freq_stop > freq_start
    intro hab
    have hincpos : 0 < inc := div_pos (by linarith) hpos
    rw [List.pairwise_map]
    refine List.Pairwise.imp ?_ (List.pairwise_lt_range n)
    intro i j hij
    have hc : (i : ℚ) < (j : ℚ) := by exact_mod_cast hij
    have := mul_lt_mul_of_pos_right hc hincpos
    linarith
  · -- constant when freq_start = freq_stop
    intro hab x hx
    simp only [List.mem_map] at hx
    obtain ⟨i, _, rfl⟩ := hx
    rw [hinc, ← hab]
    simp

/-- Witness for C2 at the spec's example store
`{freq_start: 1e9, freq_stop: 2e9, num_points: 3}`. -/
theorem freq_list_linear_spec_witness :
    ∃ l : List ℚ,
      VNA.freq_list
        [("freq_start", 1000000000), ("freq_stop", 2000000000),
         ("num_points", 3)] = Except.ok l ∧
      l.length = 3 ∧ l.head? = some 1000000000 ∧
      l.getLast? = some 2000000000 ∧
      ((1000000000 : ℚ) < 2000000000 → l.Pairwise (· < ·)) ∧
      ((1000000000 : ℚ) = 2000000000 → ∀ x ∈ l, x = 1000000000) :=
  freq_list_linear_spec _ 1000000000 2000000000 3 (by norm_num)
    (by decide) (by decide) (by decide)

/-!
## Claim C3
-/

/-- C3: for every integer port `p` with `p < 1` or `p > 24`, both
`setTransmit(p)` and `setReflect(p)` raise `SwitchInvalidPortException`
carrying the attempted value `p`, and no command is written to the
session. -/
theorem switch_invalid_port (p : Int) (h : p < 1 ∨ p > 24) :
    Switches.set_tran p = ([], some (PyExc.switchInvalidPort p)) ∧
    Switches.set_refl p = ([], some (PyExc.switchInvalidPort p)) := by
  have h' : p < Switches.PORT_MIN ∨ p > Switches.PORT_MAX := h
  constructor
  · unfold Switches.set_tran
    rw [if_pos h']
  · unfold Switches.set_refl
    rw [if_pos h']

/-- Witness for C3 at ports 0 and 25. -/
theorem switch_invalid_port_witness :
    (Switches.set_tran 0 = ([], some (PyExc.switchInvalidPort 0)) ∧
     Switches.set_refl 0 = ([], some (PyExc.switchInvalidPort 0))) ∧
    (Switches.set_tran 25 = ([], some (PyExc.switchInvalidPort 25)) ∧
     Switches.set_refl 25 = ([], some (PyExc.switchInvalidPort 25))) :=
  ⟨switch_invalid_port 0 (Or.inl (by norm_num)),
   switch_invalid_port 25 (Or.inr (by norm_num))⟩

/-!
## Claim C4
-/

/-- C4 counterexample: at port 3 the command written by `set_tran` is
`"tran_03;"` — it carries a trailing semicolon, so it is not exactly the
ASCII line `tran_03` with no other characters, contradicting the claim. -/
theorem switch_command_exact_cex :
    Switches.set_tran 3 = (["tran_03;"], none) ∧ "tran_03;" ≠ "tran_03" := by
  constructor
  · decide
  · decide

/-- C4 (amended): for every integer port `p` with `1 ≤ p ≤ 24`,
`setTransmit(p)` writes exactly the line `tran_NN;` (the fixed verb, an
underscore, the two-digit port string, and the semicolon terminator) and
`setReflect(p)` writes exactly `refl_NN` (no terminator), where `NN` is
the zero-padded decimal representation of `p`: it has length 2 and decimal
value `p`. -/
theorem switch_command_format (p : Int) (h1 : 1 ≤ p) (h2 : p ≤ 24) :
    Switches.set_tran p =
      (["tran_" ++ Switches.pad_port_number p ++ ";"], none) ∧
    Switches.set_refl p = (["refl_" ++ Switches.pad_port_number p], none) ∧
    (Switches.pad_port_number p).length = 2 ∧
    strDecValue (Switches.pad_port_number p) = p.toNat := by
  interval_cases p <;> exact ⟨by decide, by decide, by decide, by decide⟩

/-- Witness for C4's amended claim at ports 3 and 10. -/
theorem switch_command_format_witness :
    (Switches.set_tran 3 = (["tran_" ++ Switches.pad_port_number 3 ++ ";"], none) ∧
     Switches.set_refl 3 = (["refl_" ++ Switches.pad_port_number 3], none) ∧
     (Switches.pad_port_number 3).length = 2 ∧
     strDecValue (Switches.pad_port_number 3) = (3 : Int).toNat) ∧
    (Switches.pad_port_number 10).length = 2 ∧
    strDecValue (Switches.pad_port_number 10) = (10 : Int).toNat :=
  ⟨switch_command_format 3 (by norm_num) (by norm_num),
   (switch_command_format 10 (by norm_num) (by norm_num)).2.2⟩

/-!
## Claim C6
-/

/-- C6 counterexample: with `num_points = 0` (which is `< 2`),
`frequencyList()` does not reject the input at all — it successfully
returns the empty list. -/
theorem freq_list_no_reject_cex :
    VNA.freq_list
      [("freq_stop", 2), ("freq_start", 1), ("num_points", 0)] =
      Except.ok [] := by
  rw [VNA.freq_list_eq _ 1 2 0 (by decide) (by decide) (by decide)]
  norm_num [pyInt]

/-- C6 (amended): `frequencyList()` performs no explicit validation of
`num_points`: with `num_points ≤ 0` it silently succeeds and returns the
empty list, and with `num_points = 1` it reaches the division by
`num_points − 1` and fails with an unhandled `ZeroDivisionError` rather
than an explicit rejection. -/
theorem freq_list_no_validation (store : Store) (a b np : ℚ)
    (ha : List.lookup "freq_start" store = some a)
    (hb : List.lookup "freq_stop" store = some b)
    (hnp : List.lookup "num_points" store = some np) :
    (np ≤ 0 → VNA.freq_list store = Except.ok []) ∧
    (np = 1 → VNA.freq_list store = Except.error PyExc.zeroDivisionError) := by
  constructor
  · intro hle
    have hne : np - 1 ≠ 0 := by intro h; nlinarith [sub_eq_zero.mp h]
    rw [VNA.freq_list_eq store a b np hb ha hnp, if_neg hne]
    have : (pyInt np).toNat = 0 := by
      unfold pyInt
      rcases lt_or_eq_of_le hle with h0 | h0
      · rw [if_neg (not_le.mpr h0)]
        have h1 : ⌈np⌉ ≤ 0 := Int.ceil_le.mpr (by exact_mod_cast hle)
        omega
      · rw [h0]
        norm_num
    rw [this]
    simp
  · intro h1
    rw [VNA.freq_list_eq store a b np hb ha hnp, if_pos (by rw [h1]; ring)]

/-- Witness for C6's amended claim: `num_points = 0` returns `ok []`,
`num_points = 1` raises `ZeroDivisionError`. -/
theorem freq_list_no_validation_witness :
    VNA.freq_list
      [("freq_stop", 2), ("freq_start", 1), ("num_points", 0)] =
      Except.ok [] ∧
    VNA.freq_list
      [("freq_stop", 2), ("freq_start", 1), ("num_points", 1)] =
      Except.error PyExc.zeroDivisionError :=
  ⟨(freq_list_no_validation _ 1 2 0 (by decide) (by decide) (by decide)).1
      (by norm_num),
   (freq_list_no_validation _ 1 2 1 (by decide) (by decide) (by decide)).2
      rfl⟩

/-!
## Claim C1
-/

/-- C1: after a single `initialize()` from the fresh state, `fire()` first
writes the sweep-trigger command `INIT:IMM`, then issues the
operation-complete query `*OPC?`, then for each configured scattering
parameter in enable order writes exactly one parameter-select command
followed by exactly one structured-data query, and returns a mapping
whose keys are exactly the configured scattering parameters. -/
theorem fire_protocol (fmt : ℚ → String) (resp : List Ev → String → String)
    (store : Store) (st : VNA.State)
    (h : ∃ tr, VNA.initDevice fmt store VNA.initState = Except.ok (tr, st)) :
    (VNA.fire resp st).1 =
      [Ev.write "INIT:IMM", Ev.query "*OPC?"] ++
        (st.sp_to_measure.map (fun sp =>
          [Ev.write (VNA.selectCmd sp),
           Ev.query "CALCULATE:DATA? SDATA"])).flatten ∧
    (VNA.fire resp st).2.map Prod.fst =
      VNA.s_params.filter (VNA.sparamEnabled store) := by
  obtain ⟨tr, h⟩ := h
  have hsp : st.sp_to_measure = VNA.s_params.filter (VNA.sparamEnabled store) := by
    have h2 := VNA.initDevice_sp fmt store VNA.initState tr st h
    simpa [VNA.initState] using h2
  constructor
  · unfold VNA.fire
    rw [VNA.fire_fold_fst]
  · unfold VNA.fire
    have hnd : st.sp_to_measure.Nodup := by
      rw [hsp]; exact VNA.s_params_nodup.filter _
    rw [VNA.fire_fold_keys resp st.sp_to_measure _ hnd
      (by intro k _ p hp; simp at hp)]
    simpa using hsp

/-- Witness for C1: with only `S11` enabled (the spec's example store),
`fire()` issues exactly one select/data-query pair and the result has
exactly the key `S11`. -/
theorem fire_protocol_witness :
    (VNA.fire respW ⟨["S11"]⟩).1 =
      [Ev.write "INIT:IMM", Ev.query "*OPC?"] ++
        ((["S11"] : List String).map (fun sp =>
          [Ev.write (VNA.selectCmd sp),
           Ev.query "CALCULATE:DATA? SDATA"])).flatten ∧
    (VNA.fire respW ⟨["S11"]⟩).2.map Prod.fst =
      VNA.s_params.filter (VNA.sparamEnabled storeS11) :=
  fire_protocol fmt0 respW storeS11 ⟨["S11"]⟩ ⟨_, rfl⟩

/-!
## Claim C5
-/

/-- C5 counterexample: on the AnalyzerController, the first `close()`
succeeds and leaves the session closed, and the immediately following
second `close()` raises the transport invalid-session error (it writes
`*RST` to the closed session before closing), so `close()` twice in a row
does raise. -/
theorem close_twice_cex :
    VNA.closeOp true = Except.ok false ∧
    VNA.closeOp false = Except.error PyExc.invalidSession ∧
    (VNA.closeOp true).bind VNA.closeOp =
      Except.error PyExc.invalidSession :=
  ⟨rfl, rfl, rfl⟩

/-- C5 (amended): `close()` twice in a row never raises on the
SwitchController (whose `close` only closes the idempotent transport
session), but on the AnalyzerController the second `close()` raises the
invalid-session transport error, because it first writes the `*RST` reset
to the already-closed session. -/
theorem close_twice_amended :
    (∀ o : Bool, Switches.closeOp o = Except.ok false) ∧
    (Switches.closeOp true).bind Switches.closeOp = Except.ok false ∧
    (VNA.closeOp true).bind VNA.closeOp =
      Except.error PyExc.invalidSession :=
  ⟨fun _ => rfl, rfl, rfl⟩

/-!
## Claim C7
-/

/-- C7 counterexample: `storeS11Two` contains the key `S11` with the
truthy value 2 (`2 ≠ 0`), yet after a single `initialize()` the
acquisition set is empty — the code tests `== 1`, not truthiness. -/
theorem sparam_truthy_cex :
    (∃ tr, VNA.initDevice fmt0 storeS11Two VNA.initState =
      Except.ok (tr, ⟨[]⟩)) ∧
    List.lookup "S11" storeS11Two = some 2 ∧ (2 : ℚ) ≠ 0 :=
  ⟨⟨_, rfl⟩, by decide, by decide⟩

/-- C7 (amended): after `initialize()`, the acquisition set contains
exactly those names among `S11, S21, S12, S22` for which the
ParameterStore both contains the key and maps it to the exact value 1
(`== 1`); other truthy values do not enable acquisition. -/
theorem sparam_selection_exact (fmt : ℚ → String) (store : Store)
    (st : VNA.State)
    (h : ∃ tr, VNA.initDevice fmt store VNA.initState = Except.ok (tr, st)) :
    ∀ sp, sp ∈ st.sp_to_measure ↔
      sp ∈ VNA.s_params ∧ List.lookup sp store = some 1 := by
  obtain ⟨tr, h⟩ := h
  have hsp : st.sp_to_measure = VNA.s_params.filter (VNA.sparamEnabled store) := by
    have h2 := VNA.initDevice_sp fmt store VNA.initState tr st h
    simpa [VNA.initState] using h2
  intro sp
  rw [hsp, List.mem_filter]
  apply and_congr_right
  intro _
  unfold VNA.sparamEnabled
  cases hl : List.lookup sp store with
  | none => simp
  | some v => simp [hl]

/-- Witness for C7's amended claim at the spec's example store, at the
enabled parameter `S11` and the disabled parameter `S21`. -/
theorem sparam_selection_exact_witness :
    ("S11" ∈ (VNA.State.mk ["S11"]).sp_to_measure ↔
      "S11" ∈ VNA.s_params ∧ List.lookup "S11" storeS11 = some 1) ∧
    ("S21" ∈ (VNA.State.mk ["S11"]).sp_to_measure ↔
      "S21" ∈ VNA.s_params ∧ List.lookup "S21" storeS11 = some 1) :=
  ⟨sparam_selection_exact fmt0 storeS11 ⟨["S11"]⟩ ⟨_, rfl⟩ "S11",
   sparam_selection_exact fmt0 storeS11 ⟨["S11"]⟩ ⟨_, rfl⟩ "S21"⟩

/-!
## Claim C8
-/

/-- C8 counterexample: initializing twice with the spec's example store
leaves the acquisition list `["S11", "S11"]`, not its value `["S11"]`
after the first call — the entries are duplicated. -/
theorem init_idempotent_cex :
    (∃ tr₁ tr₂,
      VNA.initDevice fmt0 storeS11 VNA.initState =
        Except.ok (tr₁, ⟨["S11"]⟩) ∧
      VNA.initDevice fmt0 storeS11 ⟨["S11"]⟩ =
        Except.ok (tr₂, ⟨["S11", "S11"]⟩)) ∧
    (["S11", "S11"] : List String) ≠ ["S11"] :=
  ⟨⟨_, _, rfl, rfl⟩, by decide⟩

/-- C8 (amended): `initialize()` is not idempotent: each call appends the
enabled parameters to the existing acquisition list, so a second call
with the same store doubles the list; the state is unchanged only when no
parameter is enabled. -/
theorem init_appends (fmt : ℚ → String) (store : Store)
    (tr₁ tr₂ : List Ev) (st₁ st₂ : VNA.State)
    (h1 : VNA.initDevice fmt store VNA.initState = Except.ok (tr₁, st₁))
    (h2 : VNA.initDevice fmt store st₁ = Except.ok (tr₂, st₂)) :
    st₂.sp_to_measure = st₁.sp_to_measure ++ st₁.sp_to_measure ∧
    (st₁.sp_to_measure ≠ [] → st₂ ≠ st₁) := by
  have e1 : st₁.sp_to_measure =
      VNA.s_params.filter (VNA.sparamEnabled store) := by
    have h3 := VNA.initDevice_sp fmt store VNA.initState tr₁ st₁ h1
    simpa [VNA.initState] using h3
  have e2 := VNA.initDevice_sp fmt store st₁ tr₂ st₂ h2
  have hdouble : st₂.sp_to_measure =
      st₁.sp_to_measure ++ st₁.sp_to_measure := by
    rw [e2, ← e1]
  refine ⟨hdouble, ?_⟩
  intro hne hc
  have hlen := congrArg (fun l => l.length) hdouble
  rw [hc] at hlen
  simp only [List.length_append] at hlen
  have : st₁.sp_to_measure.length = 0 := by omega
  exact hne (List.length_eq_zero.mp this)

/-- Witness for C8's amended claim at the spec's example store. -/
theorem init_appends_witness :
    (VNA.State.mk ["S11", "S11"]).sp_to_measure = ["S11"] ++ ["S11"] ∧
    ((VNA.State.mk ["S11"]).sp_to_measure ≠ [] →
      (VNA.State.mk ["S11", "S11"]) ≠ ⟨["S11"]⟩) :=
  init_appends fmt0 storeS11 _ _ ⟨["S11"]⟩ ⟨["S11", "S11"]⟩ rfl rfl

/-!
## Claim C9
-/

/-- C9: the destruction path of either controller catches and discards
exactly the transport `VisaIOError` and `InvalidSession` failures; any
other failure raised during teardown propagates; and the same transport
failure raised during an operational (non-teardown) write is surfaced to
the caller, not swallowed. -/
theorem teardown_exception_policy (e : PyExc) (c : Except PyExc Unit)
    (cmd : String) :
    (VNA.delMethod true (Except.error PyExc.visaIOError) c = Except.ok () ∧
     VNA.delMethod true (Except.error PyExc.invalidSession) c = Except.ok () ∧
     Switches.delMethod true (Except.error PyExc.visaIOError) = Except.ok () ∧
     Switches.delMethod true (Except.error PyExc.invalidSession) = Except.ok ()) ∧
    (e ≠ PyExc.visaIOError → e ≠ PyExc.invalidSession →
      VNA.delMethod true (Except.error e) c = Except.error e ∧
      VNA.delMethod true (Except.ok ()) (Except.error e) = Except.error e ∧
      Switches.delMethod true (Except.error e) = Except.error e) ∧
    (VNA.writeOp cmd false = Except.error PyExc.invalidSession ∧
     Switches.writeOp cmd false = Except.error PyExc.invalidSession) := by
  refine ⟨⟨rfl, rfl, rfl, rfl⟩, ?_, rfl, rfl⟩
  intro h1 h2
  refine ⟨?_, ?_, ?_⟩ <;>
    cases e <;>
      first
        | exact absurd rfl h1
        | exact absurd rfl h2
        | rfl

/-- Witness for C9 at the non-transport exception `KeyError "k"`. -/
theorem teardown_exception_policy_witness :
    (VNA.delMethod true (Except.error PyExc.visaIOError) (Except.ok ()) =
       Except.ok () ∧
     VNA.delMethod true (Except.error PyExc.invalidSession) (Except.ok ()) =
       Except.ok () ∧
     Switches.delMethod true (Except.error PyExc.visaIOError) = Except.ok () ∧
     Switches.delMethod true (Except.error PyExc.invalidSession) =
       Except.ok ()) ∧
    (VNA.delMethod true (Except.error (PyExc.keyError "k")) (Except.ok ()) =
       Except.error (PyExc.keyError "k") ∧
     VNA.delMethod true (Except.ok ()) (Except.error (PyExc.keyError "k")) =
       Except.error (PyExc.keyError "k") ∧
     Switches.delMethod true (Except.error (PyExc.keyError "k")) =
       Except.error (PyExc.keyError "k")) ∧
    (VNA.writeOp "*RST" false = Except.error PyExc.invalidSession ∧
     Switches.writeOp "*RST" false = Except.error PyExc.invalidSession) := by
  have h := teardown_exception_policy (PyExc.keyError "k") (Except.ok ()) "*RST"
  exact ⟨h.1, h.2.1 (by decide) (by decide), h.2.2⟩

/-!
## Claim C10
-/

/-- C10: the enable order of acquired scattering parameters is the fixed
class-level order `S11, S21, S12, S22`: after a single `initialize()` the
acquisition set is the fixed list filtered by the enable test —
independent of the store's own key order, in that any store with the same
lookup function yields the same set — and `fire()` issues its
select/data-query pairs and builds its result mapping in that same
order. -/
theorem acquisition_fixed_order (fmt fmt' : ℚ → String)
    (resp : List Ev → String → String) (store store' : Store)
    (st st' : VNA.State)
    (h : ∃ tr, VNA.initDevice fmt store VNA.initState = Except.ok (tr, st))
    (h' : ∃ tr, VNA.initDevice fmt' store' VNA.initState = Except.ok (tr, st'))
    (hlk : ∀ k, List.lookup k store = List.lookup k store') :
    st.sp_to_measure = VNA.s_params.filter (VNA.sparamEnabled store) ∧
    st'.sp_to_measure = st.sp_to_measure ∧
    (VNA.fire resp st).1 =
      [Ev.write "INIT:IMM", Ev.query "*OPC?"] ++
        (st.sp_to_measure.map (fun sp =>
          [Ev.write (VNA.selectCmd sp),
           Ev.query "CALCULATE:DATA? SDATA"])).flatten ∧
    (VNA.fire resp st).2.map Prod.fst = st.sp_to_measure := by
  obtain ⟨tr, h⟩ := h
  obtain ⟨tr', h'⟩ := h'
  have hsp : st.sp_to_measure = VNA.s_params.filter (VNA.sparamEnabled store) := by
    have h2 := VNA.initDevice_sp fmt store VNA.initState tr st h
    simpa [VNA.initState] using h2
  have hsp' : st'.sp_to_measure =
      VNA.s_params.filter (VNA.sparamEnabled store') := by
    have h2 := VNA.initDevice_sp fmt' store' VNA.initState tr' st' h'
    simpa [VNA.initState] using h2
  have hen : ∀ sp, VNA.sparamEnabled store sp = VNA.sparamEnabled store' sp := by
    intro sp
    unfold VNA.sparamEnabled
    rw [hlk sp]
  refine ⟨hsp, ?_, ?_, ?_⟩
  · rw [hsp, hsp']
    exact List.filter_congr (fun sp _ => (hen sp).symm)
  · unfold VNA.fire
    rw [VNA.fire_fold_fst]
  · unfold VNA.fire
    have hnd : st.sp_to_measure.Nodup := by
      rw [hsp]; exact VNA.s_params_nodup.filter _
    rw [VNA.fire_fold_keys resp st.sp_to_measure _ hnd
      (by intro k _ p hp; simp at hp)]
    simp

/-- Witness for C10 at the spec's example store. -/
theorem acquisition_fixed_order_witness :
    (VNA.State.mk ["S11"]).sp_to_measure =
      VNA.s_params.filter (VNA.sparamEnabled storeS11) ∧
    (VNA.State.mk ["S11"]).sp_to_measure =
      (VNA.State.mk ["S11"]).sp_to_measure ∧
    (VNA.fire respW ⟨["S11"]⟩).1 =
      [Ev.write "INIT:IMM", Ev.query "*OPC?"] ++
        ((VNA.State.mk ["S11"]).sp_to_measure.map (fun sp =>
          [Ev.write (VNA.selectCmd sp),
           Ev.query "CALCULATE:DATA? SDATA"])).flatten ∧
    (VNA.fire respW ⟨["S11"]⟩).2.map Prod.fst =
      (VNA.State.mk ["S11"]).sp_to_measure :=
  acquisition_fixed_order fmt0 fmt0 respW storeS11 storeS11 ⟨["S11"]⟩ ⟨["S11"]⟩
    ⟨_, rfl⟩ ⟨_, rfl⟩ (fun _ => rfl)
